import Mathlib

/-!
# Verification of the legacy Wi-Fi HAL lifecycle service

Shallow embedding of `wifi_hal_service.cpp` / `wifi_chip_service.cpp`
(android wifi HAL legacy service). The controller state machine, the
two-flag shutdown barrier, the interface resolver and the chip proxy are
translated as pure Lean functions over an explicit state record; the
vendor function table is an explicit parameter (a record of pure
functions standing for the opaque `wifi_hal_fn` table). Side effects
that are externally visible (vendor calls, callback broadcasts) are
returned as an ordered event trace.
-/

/-- Vendor status codes, from the `wifi_error` enum of the vendor header
`hardware_legacy/wifi_hal.h` (external boundary). Only the distinction
success / non-success matters to the service code. -/
inductive WifiError where
  | WIFI_SUCCESS
  | WIFI_ERROR_UNKNOWN
  | WIFI_ERROR_UNINITIALIZED
  | WIFI_ERROR_NOT_AVAILABLE
  | WIFI_ERROR_NOT_SUPPORTED
  | WIFI_ERROR_INVALID_ARGS
  | WIFI_ERROR_TIMED_OUT
  | WIFI_ERROR_OUT_OF_MEMORY
  deriving DecidableEq

/-- Session states, from `WifiHalService::State` (wifi_hal_service.h:174). -/
inductive State where
  | STOPPED
  | STARTED
  | STOPPING
  deriving DecidableEq

/-- Modelled from the spec: reason categories carried by a failure
callback (`CommandFailureReason` of the HIDL interface; referenced from
src at wifi_hal_service.cpp:80 but defined outside src). Only
`NOT_AVAILABLE` is used by the service; `UNKNOWN` stands for the
category a translated legacy vendor error falls into. -/
inductive CommandFailureReason where
  | UNKNOWN
  | NOT_AVAILABLE
  deriving DecidableEq

/-- Modelled from the spec: human-readable rendering of a legacy vendor
status code (`LegacyErrorToString` of `failure_reason_util`, not under
src). The spec only requires that non-success codes are translated to
human-readable failure reasons; the rendering is injective on the codes. -/
def LegacyErrorToString : WifiError → String
  | WifiError.WIFI_SUCCESS => "SUCCESS"
  | WifiError.WIFI_ERROR_UNKNOWN => "UNKNOWN"
  | WifiError.WIFI_ERROR_UNINITIALIZED => "UNINITIALIZED"
  | WifiError.WIFI_ERROR_NOT_AVAILABLE => "NOT_AVAILABLE"
  | WifiError.WIFI_ERROR_NOT_SUPPORTED => "NOT_SUPPORTED"
  | WifiError.WIFI_ERROR_INVALID_ARGS => "INVALID_ARGS"
  | WifiError.WIFI_ERROR_TIMED_OUT => "TIMED_OUT"
  | WifiError.WIFI_ERROR_OUT_OF_MEMORY => "OUT_OF_MEMORY"

/-- Modelled from the spec: a failure reason delivered through
`onStartFailure` (`FailureReason` of `failure_reason_util`, not under
src): a reason category plus a human-readable description. -/
structure FailureReason where
  reason : CommandFailureReason
  description : String
  deriving DecidableEq

/-- Modelled from the spec: `CreateFailureReason` of
`failure_reason_util` (not under src): packs a synthetic reason category
with a description (call site wifi_hal_service.cpp:79). -/
def CreateFailureReason (r : CommandFailureReason) (desc : String) :
    FailureReason :=
  { reason := r, description := desc }

/-- Modelled from the spec: `CreateFailureReasonLegacyError` of
`failure_reason_util` (not under src): derives a failure reason from a
legacy vendor status code (call site wifi_hal_service.cpp:90); the
description embeds the rendered status, so the reason is a function of
the status code. -/
def CreateFailureReasonLegacyError (status : WifiError) (desc : String) :
    FailureReason :=
  { reason := CommandFailureReason.UNKNOWN,
    description := desc ++ ": " ++ LegacyErrorToString status }

/-- The vendor function table (`wifi_hal_fn`) plus the system property
environment, modelled as pure functions. Handles (`wifi_handle`,
`wifi_interface_handle`) are opaque tokens, modelled as `Nat`.
`wifi_init` models `wifi_initialize`: a status plus the handle written
through the out-parameter. -/
structure Vendor where
  wifi_init : WifiError × Nat
  wifi_get_ifaces : Nat → WifiError × List Nat
  wifi_get_iface_name : Nat → WifiError × String
  wifi_get_driver_version : Nat → WifiError × String
  wifi_get_firmware_version : Nat → WifiError × String
  /-- value of the `wifi.interface` system property, if set -/
  property_wifi_interface : Option String

/-- Embeds `GetWlanInterfaceName` (wifi_hal_service.cpp:44): the
`wifi.interface` property with default `"wlan0"`. -/
def GetWlanInterfaceName (v : Vendor) : String :=
  v.property_wifi_interface.getD "wlan0"

/-- Externally visible actions of the controller, in program order:
vendor calls and lifecycle callback broadcasts. Subscribers are opaque
identities (`sp` pointer values), modelled as `Nat`. -/
inductive Event where
  | onStart (sub : Nat)
  | onStartFailure (sub : Nat) (reason : FailureReason)
  | onStop (sub : Nat)
  | vendorInit
  | vendorCleanup
  | chipInvalidate
  deriving DecidableEq

/-- Ordered unique insertion, modelling `std::set<sp<T>>::insert`: the
set is ordered by the raw pointer value and an element equal to an
existing key is not inserted again. -/
def setInsert (x : Nat) : List Nat → List Nat
  | [] => [x]
  | y :: ys =>
    if x < y then x :: y :: ys
    else if x = y then y :: ys
    else y :: setInsert x ys

/-- Embeds `WifiChipService` (wifi_chip_service.h/.cpp): the chip proxy.
`hal_service_` models the back-pointer to the controller: `true` iff the
pointer is non-null (the controller is a process singleton, so only
presence matters). -/
structure WifiChipService where
  hal_service_ : Bool
  interface_handle_ : Nat
  callbacks_ : List Nat
  deriving DecidableEq

/-- Result record of a debug-info query
(`IWifiChipEventCallback::ChipDebugInfo`). -/
structure ChipDebugInfo where
  driverDescription : String
  firmwareDescription : String
  deriving DecidableEq

/-- Externally visible actions of the chip proxy. -/
inductive ChipEvent where
  | vendorGetDriverVersion
  | vendorGetFirmwareVersion
  | onChipDebugInfoAvailable (sub : Nat) (info : ChipDebugInfo)
  deriving DecidableEq

/-- Embeds `WifiChipService::Invalidate` (wifi_chip_service.cpp:33):
clears the controller back-pointer and the chip subscriber set. -/
def WifiChipService.Invalidate (c : WifiChipService) : WifiChipService :=
  { c with hal_service_ := false, callbacks_ := [] }

/-- Embeds `WifiChipService::registerEventCallback`
(wifi_chip_service.cpp:38): no-op when invalidated, otherwise set-insert
into `callbacks_`. -/
def WifiChipService.registerEventCallback (c : WifiChipService)
    (cb : Nat) : WifiChipService :=
  if !c.hal_service_ then c
  else { c with callbacks_ := setInsert cb c.callbacks_ }

/-- Embeds `WifiChipService::getAvailableModes`
(wifi_chip_service.cpp:45): when invalidated the callback receives an
empty vector (`some []`); otherwise the implementation is a TODO stub
that returns without invoking the callback (`none`). -/
def WifiChipService.getAvailableModes (c : WifiChipService) :
    WifiChipService × Option (List Nat) :=
  if !c.hal_service_ then (c, some []) else (c, none)

/-- Embeds `WifiChipService::configureChip` (wifi_chip_service.cpp:55):
a no-op in both branches (TODO stub when valid). -/
def WifiChipService.configureChip (c : WifiChipService)
    (_mode_id : Nat) : WifiChipService :=
  c

/-- Embeds `WifiChipService::getMode` (wifi_chip_service.cpp:61):
returns 0 in both branches (TODO stub when valid). -/
def WifiChipService.getMode (c : WifiChipService) :
    WifiChipService × Nat :=
  (c, 0)

/-- The two sequential vendor version queries of
`WifiChipService::requestChipDebugInfo` (wifi_chip_service.cpp:70-95):
the record starts as `<unknown>` / `<unknown>` and each field is
overwritten only when its vendor query succeeds. -/
def WifiChipService.chipDebugInfo (v : Vendor) (c : WifiChipService) :
    ChipDebugInfo :=
  let result0 : ChipDebugInfo :=
    { driverDescription := "<unknown>", firmwareDescription := "<unknown>" }
  let p1 := v.wifi_get_driver_version c.interface_handle_
  let result1 :=
    if p1.1 = WifiError.WIFI_SUCCESS then
      { result0 with driverDescription := p1.2 }
    else result0
  let p2 := v.wifi_get_firmware_version c.interface_handle_
  if p2.1 = WifiError.WIFI_SUCCESS then
    { result1 with firmwareDescription := p2.2 }
  else result1

/-- Embeds `WifiChipService::requestChipDebugInfo`
(wifi_chip_service.cpp:67): no-op when invalidated; otherwise queries
the two version strings from the vendor and broadcasts the resulting
record to the chip subscribers. -/
def WifiChipService.requestChipDebugInfo (v : Vendor)
    (c : WifiChipService) : WifiChipService × List ChipEvent :=
  if !c.hal_service_ then (c, [])
  else
    (c, ChipEvent.vendorGetDriverVersion ::
        ChipEvent.vendorGetFirmwareVersion ::
        c.callbacks_.map (fun cb =>
          ChipEvent.onChipDebugInfoAvailable cb
            (WifiChipService.chipDebugInfo v c)))

/-- Embeds `WifiHalService` (wifi_hal_service.h:145): the lifecycle
controller. `event_loop_thread_` is `true` while a spawned event-loop
thread object is held (the worker's self-detach on exit is outside the
control-thread state and not claim-relevant, so it is not modelled). -/
structure WifiHalService where
  state_ : State
  callbacks_ : List Nat
  hal_handle_ : Nat
  chip_ : Option WifiChipService
  event_loop_thread_ : Bool
  awaiting_hal_cleanup_command_ : Bool
  awaiting_hal_event_loop_termination_ : Bool
  deriving DecidableEq

/-- Embeds `WifiHalService::registerEventCallback`
(wifi_hal_service.cpp:61): `callbacks_.insert(callback)` on the
`std::set`. -/
def WifiHalService.registerEventCallback (s : WifiHalService)
    (cb : Nat) : WifiHalService :=
  { s with callbacks_ := setInsert cb s.callbacks_ }

/-- Embeds `WifiHalService::isStarted` (wifi_hal_service.cpp:67):
`state_ != State::STOPPED`. -/
def WifiHalService.isStarted (s : WifiHalService) : Bool :=
  s.state_ != State.STOPPED

/-- The enumeration loop of `WifiHalService::FindInterfaceHandle`
(wifi_hal_service.cpp:121-133): per handle, query the name; on query
success compare against the requested name and return the handle on a
match; on query failure log and continue. -/
def findIfaceLoop (v : Vendor) (ifname : String) :
    List Nat → Option Nat
  | [] => none
  | h :: rest =>
    let p := v.wifi_get_iface_name h
    if p.1 = WifiError.WIFI_SUCCESS then
      if ifname = p.2 then some h
      else findIfaceLoop v ifname rest
    else findIfaceLoop v ifname rest

/-- Embeds `WifiHalService::FindInterfaceHandle`
(wifi_hal_service.cpp:113): enumerate the vendor-reported interface
handles and search for the requested name; `none` models
`kInterfaceNotFoundHandle`; a top-level `wifi_get_ifaces` failure yields
the sentinel directly. -/
def FindInterfaceHandle (v : Vendor) (hal_handle : Nat)
    (ifname : String) : Option Nat :=
  let p := v.wifi_get_ifaces hal_handle
  if p.1 = WifiError.WIFI_SUCCESS then findIfaceLoop v ifname p.2
  else none

/-- Embeds `WifiHalService::start` (wifi_hal_service.cpp:71). The
STOPPED branch: vendor initialization (writing `hal_handle_` through the
out-parameter), then on success spawn the event-loop thread, resolve the
interface, create the chip proxy when found, set STARTED and broadcast
`onStart`. -/
def WifiHalService.start (v : Vendor) (s : WifiHalService) :
    WifiHalService × List Event :=
  match s.state_ with
  | State.STARTED => (s, s.callbacks_.map Event.onStart)
  | State.STOPPING =>
      (s, s.callbacks_.map (fun c =>
        Event.onStartFailure c
          (CreateFailureReason CommandFailureReason.NOT_AVAILABLE
            "HAL is stopping")))
  | State.STOPPED =>
      let p := v.wifi_init
      let s0 := { s with hal_handle_ := p.2 }
      if p.1 ≠ WifiError.WIFI_SUCCESS then
        (s0, Event.vendorInit :: s.callbacks_.map (fun c =>
          Event.onStartFailure c
            (CreateFailureReasonLegacyError p.1
              "Failed to initialize HAL")))
      else
        let s1 := { s0 with event_loop_thread_ := true }
        let s2 :=
          match FindInterfaceHandle v s1.hal_handle_
              (GetWlanInterfaceName v) with
          | some ih =>
              let newChip : WifiChipService :=
                { hal_service_ := true, interface_handle_ := ih,
                  callbacks_ := [] }
              { s1 with chip_ := some newChip }
          | none => s1
        let s3 := { s2 with state_ := State.STARTED }
        (s3, Event.vendorInit :: s.callbacks_.map Event.onStart)

/-- Embeds `WifiHalService::FinishHalCleanup`
(wifi_hal_service.cpp:183): barrier resolution — when both flags are
clear, set STOPPED and broadcast `onStop`. -/
def WifiHalService.FinishHalCleanup (s : WifiHalService) :
    WifiHalService × List Event :=
  if !s.awaiting_hal_cleanup_command_ &&
     !s.awaiting_hal_event_loop_termination_ then
    ({ s with state_ := State.STOPPED }, s.callbacks_.map Event.onStop)
  else (s, [])

/-- The teardown prefix of `WifiHalService::stop`
(wifi_hal_service.cpp:155-162): set both barrier flags, set STOPPING,
invalidate and release the chip proxy, submit the vendor cleanup
command. -/
def WifiHalService.stopTeardown (s : WifiHalService) :
    WifiHalService × List Event :=
  let s1 := { s with awaiting_hal_cleanup_command_ := true,
                     awaiting_hal_event_loop_termination_ := true,
                     state_ := State.STOPPING }
  let invEvents : List Event :=
    if s1.chip_.isSome then [Event.chipInvalidate] else []
  let s2 := { s1 with chip_ := none }
  (s2, invEvents ++ [Event.vendorCleanup])

/-- The tail of `WifiHalService::stop` (wifi_hal_service.cpp:163-165):
clear the cleanup-command flag and attempt barrier resolution. -/
def WifiHalService.clearCleanupAndFinish (s : WifiHalService) :
    WifiHalService × List Event :=
  WifiHalService.FinishHalCleanup
    { s with awaiting_hal_cleanup_command_ := false }

/-- The completion task posted by `WifiHalService::DoHalEventLoop`
(wifi_hal_service.cpp:177-180): clear the event-loop-termination flag
and attempt barrier resolution. -/
def WifiHalService.eventLoopTerminationTask (s : WifiHalService) :
    WifiHalService × List Event :=
  WifiHalService.FinishHalCleanup
    { s with awaiting_hal_event_loop_termination_ := false }

/-- Embeds `WifiHalService::stop` (wifi_hal_service.cpp:144). STOPPED:
immediate `onStop` broadcast; STOPPING: silent no-op; STARTED: teardown
followed by clearing the cleanup flag and attempting barrier
resolution. -/
def WifiHalService.stop (s : WifiHalService) :
    WifiHalService × List Event :=
  match s.state_ with
  | State.STOPPED => (s, s.callbacks_.map Event.onStop)
  | State.STOPPING => (s, [])
  | State.STARTED =>
      let t := WifiHalService.stopTeardown s
      let f := WifiHalService.clearCleanupAndFinish t.1
      (f.1, t.2 ++ f.2)

/-- Outcome of `WifiHalService::DoHalEventLoop` once the vendor
`wifi_event_loop` call has returned (wifi_hal_service.cpp:172-180):
either the fatal `LOG(FATAL)` abort, or the dispatch of the
event-loop-termination completion task onto the control thread. -/
inductive LoopExitOutcome where
  | fatal
  | dispatchTermination
  deriving DecidableEq

/-- The post-return portion of `WifiHalService::DoHalEventLoop`
(wifi_hal_service.cpp:169): abort the process when the state is not
STOPPING, otherwise detach and post the termination task. -/
def WifiHalService.doHalEventLoopExit (s : WifiHalService) :
    LoopExitOutcome :=
  if s.state_ ≠ State.STOPPING then LoopExitOutcome.fatal
  else LoopExitOutcome.dispatchTermination

/-- Embeds `WifiHalService::getChip` (wifi_hal_service.cpp:194): the
chip reference handed to the callback (`none` models a null `sp`). -/
def WifiHalService.getChip (s : WifiHalService) :
    Option WifiChipService :=
  s.chip_

/-- Number of `onStop` callback invocations in a trace. -/
def onStopCount (tr : List Event) : Nat :=
  (tr.filter (fun e =>
    match e with
    | Event.onStop _ => true
    | _ => false)).length

/-- The predicate the resolver's loop searches for: the vendor name
query on the handle succeeds and the reported name equals the requested
name. Written from the spec's words for the refinement statement of the
resolver. -/
def ifaceNameMatches (v : Vendor) (ifname : String) (h : Nat) : Bool :=
  decide ((v.wifi_get_iface_name h).1 = WifiError.WIFI_SUCCESS) &&
  decide (ifname = (v.wifi_get_iface_name h).2)

/-- A sequence of `n` consecutive `start()` calls, collecting each
call's broadcast trace. -/
def startIter (v : Vendor) : Nat → WifiHalService →
    WifiHalService × List (List Event)
  | 0, s => (s, [])
  | Nat.succ n, s =>
      let r := WifiHalService.start v s
      let rest := startIter v n r.1
      (rest.1, r.2 :: rest.2)

/-- Property of claim C1, for a state `s` in which the stop operation
begins: after the teardown prefix of `stop()`, whichever order the two
barrier-flag-clearing events run, no `onStop` fires before the second of
them; the second fires the `onStop` broadcast to all subscribers exactly
once; and it leaves state STOPPED with both barrier flags clear. -/
def StopBarrierProp (s : WifiHalService) : Prop :=
  onStopCount (WifiHalService.stopTeardown s).2 = 0 ∧
  onStopCount (WifiHalService.clearCleanupAndFinish
    (WifiHalService.stopTeardown s).1).2 = 0 ∧
  (WifiHalService.eventLoopTerminationTask
      (WifiHalService.clearCleanupAndFinish
        (WifiHalService.stopTeardown s).1).1).2 =
    s.callbacks_.map Event.onStop ∧
  (WifiHalService.eventLoopTerminationTask
      (WifiHalService.clearCleanupAndFinish
        (WifiHalService.stopTeardown s).1).1).1.state_ =
    State.STOPPED ∧
  (WifiHalService.eventLoopTerminationTask
      (WifiHalService.clearCleanupAndFinish
        (WifiHalService.stopTeardown s).1).1).1.awaiting_hal_cleanup_command_ = false ∧
  (WifiHalService.eventLoopTerminationTask
      (WifiHalService.clearCleanupAndFinish
        (WifiHalService.stopTeardown s).1).1).1.awaiting_hal_event_loop_termination_ = false ∧
  onStopCount (WifiHalService.eventLoopTerminationTask
    (WifiHalService.stopTeardown s).1).2 = 0 ∧
  (WifiHalService.clearCleanupAndFinish
      (WifiHalService.eventLoopTerminationTask
        (WifiHalService.stopTeardown s).1).1).2 =
    s.callbacks_.map Event.onStop ∧
  (WifiHalService.clearCleanupAndFinish
      (WifiHalService.eventLoopTerminationTask
        (WifiHalService.stopTeardown s).1).1).1.state_ =
    State.STOPPED ∧
  (WifiHalService.clearCleanupAndFinish
      (WifiHalService.eventLoopTerminationTask
        (WifiHalService.stopTeardown s).1).1).1.awaiting_hal_cleanup_command_ = false ∧
  (WifiHalService.clearCleanupAndFinish
      (WifiHalService.eventLoopTerminationTask
        (WifiHalService.stopTeardown s).1).1).1.awaiting_hal_event_loop_termination_ = false

/-- Property of claim C3, for a vendor table `v` and state `s`:
`start()` returns the state unchanged, broadcasts
`onStartFailure(NOT_AVAILABLE)` to exactly the current subscribers, and
the trace holds nothing else (in particular no vendor call). -/
def StartWhileStoppingProp (v : Vendor) (s : WifiHalService) : Prop :=
  WifiHalService.start v s =
    (s, s.callbacks_.map (fun c => Event.onStartFailure c
      (CreateFailureReason CommandFailureReason.NOT_AVAILABLE
        "HAL is stopping"))) ∧
  (∀ c ∈ s.callbacks_,
    Event.onStartFailure c
      (CreateFailureReason CommandFailureReason.NOT_AVAILABLE
        "HAL is stopping") ∈ (WifiHalService.start v s).2) ∧
  (∀ e ∈ (WifiHalService.start v s).2, ∃ c ∈ s.callbacks_,
    e = Event.onStartFailure c
      (CreateFailureReason CommandFailureReason.NOT_AVAILABLE
        "HAL is stopping")) ∧
  (WifiHalService.start v s).1 = s

/-- Property of claim C4, for a vendor table `v` and state `s`: after a
`start()` whose vendor initialization fails, the state is STOPPED, no
event-loop thread was spawned, no chip proxy was created, subscribers
and barrier flags are untouched, and every subscriber received an
`onStartFailure` whose reason is derived from the vendor status code. -/
def StartInitFailureProp (v : Vendor) (s : WifiHalService) : Prop :=
  (WifiHalService.start v s).1.state_ = State.STOPPED ∧
  (WifiHalService.start v s).1.event_loop_thread_ =
    s.event_loop_thread_ ∧
  (WifiHalService.start v s).1.chip_ = s.chip_ ∧
  (WifiHalService.start v s).1.callbacks_ = s.callbacks_ ∧
  (WifiHalService.start v s).1.awaiting_hal_cleanup_command_ =
    s.awaiting_hal_cleanup_command_ ∧
  (WifiHalService.start v s).1.awaiting_hal_event_loop_termination_ =
    s.awaiting_hal_event_loop_termination_ ∧
  (WifiHalService.start v s).2 =
    Event.vendorInit :: s.callbacks_.map (fun c =>
      Event.onStartFailure c
        (CreateFailureReasonLegacyError v.wifi_init.1
          "Failed to initialize HAL")) ∧
  ∀ c ∈ s.callbacks_,
    Event.onStartFailure c
      (CreateFailureReasonLegacyError v.wifi_init.1
        "Failed to initialize HAL") ∈ (WifiHalService.start v s).2

/-- Property of claim C5, for a vendor table `v`, state `s` and a count
`n`: a sequence of `n` `start()` calls leaves the state unchanged, each
call broadcasts `onStart` to all subscribers, and no call's trace
contains a vendor initialization. -/
def StartRepeatedProp (v : Vendor) (s : WifiHalService) (n : Nat) :
    Prop :=
  startIter v n s =
    (s, List.replicate n (s.callbacks_.map Event.onStart)) ∧
  ∀ tr ∈ (startIter v n s).2, Event.vendorInit ∉ tr

/-- Property of claim C7, for a vendor table `v` and chip `c`: each
field of the debug-info record is the placeholder `"<unknown>"` exactly
when its vendor query fails, and otherwise the queried value; the record
is broadcast to all chip subscribers and the chip is unchanged. -/
def ChipDebugInfoFallbackProp (v : Vendor) (c : WifiChipService) :
    Prop :=
  ((v.wifi_get_driver_version c.interface_handle_).1 ≠
      WifiError.WIFI_SUCCESS →
    (WifiChipService.chipDebugInfo v c).driverDescription =
      "<unknown>") ∧
  ((v.wifi_get_driver_version c.interface_handle_).1 =
      WifiError.WIFI_SUCCESS →
    (WifiChipService.chipDebugInfo v c).driverDescription =
      (v.wifi_get_driver_version c.interface_handle_).2) ∧
  ((v.wifi_get_firmware_version c.interface_handle_).1 ≠
      WifiError.WIFI_SUCCESS →
    (WifiChipService.chipDebugInfo v c).firmwareDescription =
      "<unknown>") ∧
  ((v.wifi_get_firmware_version c.interface_handle_).1 =
      WifiError.WIFI_SUCCESS →
    (WifiChipService.chipDebugInfo v c).firmwareDescription =
      (v.wifi_get_firmware_version c.interface_handle_).2) ∧
  (WifiChipService.requestChipDebugInfo v c).1 = c ∧
  (WifiChipService.requestChipDebugInfo v c).2 =
    ChipEvent.vendorGetDriverVersion ::
    ChipEvent.vendorGetFirmwareVersion ::
    c.callbacks_.map (fun cb =>
      ChipEvent.onChipDebugInfoAvailable cb
        (WifiChipService.chipDebugInfo v c)) ∧
  ∀ cb ∈ c.callbacks_,
    ChipEvent.onChipDebugInfoAvailable cb
        (WifiChipService.chipDebugInfo v c) ∈
      (WifiChipService.requestChipDebugInfo v c).2

/-- Property of claim C10, for a state `s`: `stop()` emits the chip
invalidation strictly before the vendor cleanup command, releases the
chip reference, and afterwards `getChip` reports absence while
`isStarted()` still reports `true` and the state is STOPPING. -/
def StopChipReleaseProp (s : WifiHalService) : Prop :=
  (WifiHalService.stop s).2 =
    [Event.chipInvalidate, Event.vendorCleanup] ∧
  (WifiHalService.stop s).1.chip_ = none ∧
  WifiHalService.getChip (WifiHalService.stop s).1 = none ∧
  WifiHalService.isStarted (WifiHalService.stop s).1 = true ∧
  (WifiHalService.stop s).1.state_ = State.STOPPING

/-- Property of the amended claim C9, for a vendor table `v`, state `s`
and subscriber `cb`: registering `cb` twice equals registering it once
(the identity-keyed set deduplicates), and a subsequent `onStart`
broadcast delivers exactly one invocation to `cb`. -/
def DoubleRegistrationDedupProp (v : Vendor) (s : WifiHalService)
    (cb : Nat) : Prop :=
  WifiHalService.registerEventCallback
      (WifiHalService.registerEventCallback s cb) cb =
    WifiHalService.registerEventCallback s cb ∧
  ((WifiHalService.start v (WifiHalService.registerEventCallback
      (WifiHalService.registerEventCallback s cb) cb)).2.filter
    (fun e => decide (e = Event.onStart cb))).length = 1

/-- Concrete vendor table used by the witnesses: initialization
succeeds, handle 10's name query fails, handle 11 is `"wlan0"`, the
driver-version query fails, the firmware-version query succeeds. -/
def vendorW : Vendor :=
  { wifi_init := (WifiError.WIFI_SUCCESS, 1),
    wifi_get_ifaces := fun _ => (WifiError.WIFI_SUCCESS, [10, 11]),
    wifi_get_iface_name := fun h =>
      if h = 11 then (WifiError.WIFI_SUCCESS, "wlan0")
      else (WifiError.WIFI_ERROR_UNKNOWN, ""),
    wifi_get_driver_version := fun _ => (WifiError.WIFI_ERROR_UNKNOWN, ""),
    wifi_get_firmware_version := fun _ => (WifiError.WIFI_SUCCESS, "fw-1"),
    property_wifi_interface := none }

/-- Concrete vendor table whose initialization fails. -/
def vendorInitFailW : Vendor :=
  { vendorW with wifi_init := (WifiError.WIFI_ERROR_UNKNOWN, 0) }

/-- Concrete valid chip proxy with one subscriber. -/
def chipW : WifiChipService :=
  { hal_service_ := true, interface_handle_ := 11, callbacks_ := [4] }

/-- Concrete controller at STOPPED with two subscribers. -/
def halStoppedW : WifiHalService :=
  { state_ := State.STOPPED, callbacks_ := [3, 7], hal_handle_ := 0,
    chip_ := none, event_loop_thread_ := false,
    awaiting_hal_cleanup_command_ := false,
    awaiting_hal_event_loop_termination_ := false }

/-- Concrete controller at STARTED holding a chip proxy. -/
def halStartedW : WifiHalService :=
  { halStoppedW with
    state_ := State.STARTED, hal_handle_ := 1,
    chip_ := some chipW, event_loop_thread_ := true }

/-- Concrete controller at STOPPING (mid-barrier: the event-loop flag is
still set). -/
def halStoppingW : WifiHalService :=
  { halStartedW with
    state_ := State.STOPPING, chip_ := none,
    awaiting_hal_event_loop_termination_ := true }

theorem findIfaceLoop_eq_find (v : Vendor) (ifname : String)
    (hs : List Nat) :
    findIfaceLoop v ifname hs = hs.find? (ifaceNameMatches v ifname) := by
  induction hs with
  | nil => rfl
  | cons h rest ih =>
    by_cases h1 : (v.wifi_get_iface_name h).1 = WifiError.WIFI_SUCCESS
    · by_cases h2 : ifname = (v.wifi_get_iface_name h).2
      · simp [findIfaceLoop, List.find?, ifaceNameMatches, h1, h2]
      · simp [findIfaceLoop, List.find?, ifaceNameMatches, h1, h2, ih]
    · simp [findIfaceLoop, List.find?, ifaceNameMatches, h1, ih]

/-- Claim C6: for every requested name and vendor-reported handle list,
`FindInterfaceHandle` returns the first handle (in enumeration order)
whose name query succeeds and matches the requested name; handles whose
name query fails are skipped; a top-level enumeration failure, or the
absence of any match, yields the not-found sentinel (`none`). -/
theorem FindInterfaceHandle_first_match (v : Vendor) (hal_handle : Nat)
    (ifname : String) :
    FindInterfaceHandle v hal_handle ifname =
      (if (v.wifi_get_ifaces hal_handle).1 = WifiError.WIFI_SUCCESS then
        ((v.wifi_get_ifaces hal_handle).2).find? (ifaceNameMatches v ifname)
      else none) := by
  unfold FindInterfaceHandle
  by_cases h : (v.wifi_get_ifaces hal_handle).1 = WifiError.WIFI_SUCCESS
  · simp [h, findIfaceLoop_eq_find]
  · simp [h]

/-- Claim C2: the vendor event-loop entry point returning while the
session state is not STOPPING aborts the process (fatal), and the
event-loop-termination completion task is dispatched exactly when the
state is STOPPING. -/
theorem event_loop_exit_fatal_iff_not_stopping (s : WifiHalService) :
    (WifiHalService.doHalEventLoopExit s = LoopExitOutcome.fatal ↔
      s.state_ ≠ State.STOPPING) ∧
    (WifiHalService.doHalEventLoopExit s =
        LoopExitOutcome.dispatchTermination ↔
      s.state_ = State.STOPPING) := by
  unfold WifiHalService.doHalEventLoopExit
  by_cases h : s.state_ = State.STOPPING <;> simp [h]

/-- Claim C3: `start()` while state = STOPPING broadcasts
`onStartFailure(NOT_AVAILABLE)` to every current subscriber, performs no
vendor call, and leaves the controller state entirely unchanged. -/
theorem start_while_stopping_rejected (v : Vendor) (s : WifiHalService)
    (h : s.state_ = State.STOPPING) :
    StartWhileStoppingProp v s := by
  unfold StartWhileStoppingProp
  rcases s with ⟨st, cbs, hh, ch, th, f1, f2⟩
  cases h
  refine ⟨rfl, ?_, ?_, rfl⟩
  · intro c hc
    simp [WifiHalService.start]
    exact hc
  · intro e he
    simp [WifiHalService.start] at he
    obtain ⟨c, hc, rfl⟩ := he
    exact ⟨c, hc, rfl⟩

theorem start_while_stopping_rejected_witness :
    halStoppingW.state_ = State.STOPPING ∧
    StartWhileStoppingProp vendorW halStoppingW :=
  ⟨rfl, start_while_stopping_rejected vendorW halStoppingW rfl⟩

/-- Claim C8: after `Invalidate()` the controller back-reference and the
chip subscriber set are cleared, and every subsequent chip operation
(callback registration, debug-info request and the stub operations) is a
no-op: `requestChipDebugInfo` in particular performs no vendor call and
delivers no broadcast. -/
theorem invalidate_makes_operations_noops (v : Vendor)
    (c : WifiChipService) (cb mode : Nat) :
    (WifiChipService.Invalidate c).hal_service_ = false ∧
    (WifiChipService.Invalidate c).callbacks_ = [] ∧
    WifiChipService.registerEventCallback (WifiChipService.Invalidate c)
        cb = WifiChipService.Invalidate c ∧
    WifiChipService.requestChipDebugInfo v (WifiChipService.Invalidate c) =
      (WifiChipService.Invalidate c, []) ∧
    WifiChipService.getAvailableModes (WifiChipService.Invalidate c) =
      (WifiChipService.Invalidate c, some []) ∧
    WifiChipService.configureChip (WifiChipService.Invalidate c) mode =
      WifiChipService.Invalidate c ∧
    WifiChipService.getMode (WifiChipService.Invalidate c) =
      (WifiChipService.Invalidate c, 0) := by
  refine ⟨rfl, rfl, ?_, ?_, ?_, rfl, rfl⟩ <;>
    simp [WifiChipService.Invalidate, WifiChipService.registerEventCallback,
      WifiChipService.requestChipDebugInfo,
      WifiChipService.getAvailableModes]

/-- Claim C4: `start()` while state = STOPPED with a failing vendor
initialization broadcasts to every current subscriber an
`onStartFailure` whose reason is derived from the vendor status code;
the state stays STOPPED, no event-loop thread is spawned, no chip proxy
is created, and the subscriber set and barrier flags are untouched. -/
theorem start_vendor_init_failure (v : Vendor) (s : WifiHalService)
    (h : s.state_ = State.STOPPED)
    (hf : v.wifi_init.1 ≠ WifiError.WIFI_SUCCESS) :
    StartInitFailureProp v s := by
  unfold StartInitFailureProp
  rcases s with ⟨st, cbs, hh, ch, th, f1, f2⟩
  cases h
  refine ⟨?_, ?_, ?_, ?_, ?_, ?_, ?_, ?_⟩ <;>
    simp [WifiHalService.start, hf]

theorem start_vendor_init_failure_witness :
    halStoppedW.state_ = State.STOPPED ∧
    vendorInitFailW.wifi_init.1 ≠ WifiError.WIFI_SUCCESS ∧
    StartInitFailureProp vendorInitFailW halStoppedW :=
  ⟨rfl, by decide,
    start_vendor_init_failure vendorInitFailW halStoppedW rfl (by decide)⟩

/-- Claim C7: `requestChipDebugInfo()` on a non-invalidated chip: a
field whose vendor query fails is set to the fixed placeholder
`"<unknown>"`; a field whose query succeeds carries the queried value;
in every case the two-field record is broadcast to all of the chip's
subscribers (the call never fails as a whole). -/
theorem requestChipDebugInfo_field_fallback (v : Vendor)
    (c : WifiChipService) (h : c.hal_service_ = true) :
    ChipDebugInfoFallbackProp v c := by
  unfold ChipDebugInfoFallbackProp
  refine ⟨?_, ?_, ?_, ?_, ?_, ?_, ?_⟩
  · intro h1
    by_cases h2 : (v.wifi_get_firmware_version c.interface_handle_).1 =
        WifiError.WIFI_SUCCESS <;>
      simp [WifiChipService.chipDebugInfo, h1, h2]
  · intro h1
    by_cases h2 : (v.wifi_get_firmware_version c.interface_handle_).1 =
        WifiError.WIFI_SUCCESS <;>
      simp [WifiChipService.chipDebugInfo, h1, h2]
  · intro h2
    by_cases h1 : (v.wifi_get_driver_version c.interface_handle_).1 =
        WifiError.WIFI_SUCCESS <;>
      simp [WifiChipService.chipDebugInfo, h1, h2]
  · intro h2
    by_cases h1 : (v.wifi_get_driver_version c.interface_handle_).1 =
        WifiError.WIFI_SUCCESS <;>
      simp [WifiChipService.chipDebugInfo, h1, h2]
  · simp [WifiChipService.requestChipDebugInfo, h]
  · simp [WifiChipService.requestChipDebugInfo, h]
  · intro cb hcb
    simp [WifiChipService.requestChipDebugInfo, h]
    exact hcb

theorem requestChipDebugInfo_field_fallback_witness :
    chipW.hal_service_ = true ∧
    ChipDebugInfoFallbackProp vendorW chipW :=
  ⟨rfl, requestChipDebugInfo_field_fallback vendorW chipW rfl⟩

/-- Claim C10: `stop()` in state STARTED with a chip proxy present
invalidates and releases the chip before submitting the vendor cleanup
command; after `stop()` returns the state is STOPPING (the barrier has
not resolved), `getChip` reports an absent chip and `isStarted()` still
returns `true`. -/
theorem stop_invalidates_chip_before_cleanup (s : WifiHalService)
    (h : s.state_ = State.STARTED) (hc : s.chip_.isSome = true) :
    StopChipReleaseProp s := by
  unfold StopChipReleaseProp
  rcases s with ⟨st, cbs, hh, ch, th, f1, f2⟩
  cases h
  refine ⟨?_, ?_, ?_, ?_, ?_⟩ <;>
    simp [WifiHalService.stop, WifiHalService.stopTeardown,
      WifiHalService.clearCleanupAndFinish, WifiHalService.FinishHalCleanup,
      WifiHalService.getChip, WifiHalService.isStarted, hc]

theorem stop_invalidates_chip_before_cleanup_witness :
    halStartedW.state_ = State.STARTED ∧
    halStartedW.chip_.isSome = true ∧
    StopChipReleaseProp halStartedW :=
  ⟨rfl, by decide,
    stop_invalidates_chip_before_cleanup halStartedW rfl (by decide)⟩

/-- Claim C1: for a stop operation initiated in state STARTED, whichever
order the two barrier-flag-clearing events (cleanup-command completion
and event-loop termination) reach barrier resolution, no `onStop` fires
before the second of them, the second fires the `onStop` broadcast to
all subscribers exactly once, and at that point the state is STOPPED
with both barrier flags clear. -/
theorem stop_onStop_exactly_once (s : WifiHalService)
    (h : s.state_ = State.STARTED) :
    StopBarrierProp s := by
  unfold StopBarrierProp
  rcases s with ⟨st, cbs, hh, ch, th, f1, f2⟩
  refine ⟨?_, ?_, ?_, ?_, ?_, ?_, ?_, ?_, ?_, ?_, ?_⟩ <;>
    cases ch <;>
      simp [WifiHalService.stopTeardown,
        WifiHalService.clearCleanupAndFinish,
        WifiHalService.eventLoopTerminationTask,
        WifiHalService.FinishHalCleanup, onStopCount, List.filter_append]

theorem stop_onStop_exactly_once_witness :
    halStartedW.state_ = State.STARTED ∧ StopBarrierProp halStartedW :=
  ⟨rfl, stop_onStop_exactly_once halStartedW rfl⟩

theorem start_while_started_step (v : Vendor) (s : WifiHalService)
    (h : s.state_ = State.STARTED) :
    WifiHalService.start v s = (s, s.callbacks_.map Event.onStart) := by
  rcases s with ⟨st, cbs, hh, ch, th, f1, f2⟩
  cases h
  rfl

/-- Claim C5: every `start()` call made while state = STARTED broadcasts
`onStart` to all subscribers, re-invokes no vendor initialization, and
leaves the state STARTED; this holds along any sequence of repeated
`start()` calls. -/
theorem start_repeated_while_started (v : Vendor) (s : WifiHalService)
    (n : Nat) (h : s.state_ = State.STARTED) :
    StartRepeatedProp v s n := by
  unfold StartRepeatedProp
  have key : ∀ m, startIter v m s =
      (s, List.replicate m (s.callbacks_.map Event.onStart)) := by
    intro m
    induction m with
    | zero => rfl
    | succ k ih =>
        simp only [startIter, start_while_started_step v s h, ih,
          List.replicate_succ]
  refine ⟨key n, ?_⟩
  intro tr htr
  rw [key n] at htr
  have : tr = s.callbacks_.map Event.onStart :=
    List.eq_of_mem_replicate htr
  subst this
  simp

theorem start_repeated_while_started_witness :
    halStartedW.state_ = State.STARTED ∧
    StartRepeatedProp vendorW halStartedW 2 :=
  ⟨rfl, start_repeated_while_started vendorW halStartedW 2 rfl⟩

theorem setInsert_idem (x : Nat) (l : List Nat) :
    setInsert x (setInsert x l) = setInsert x l := by
  induction l with
  | nil => simp [setInsert]
  | cons y ys ih =>
    by_cases h1 : x < y
    · simp [setInsert, h1, lt_irrefl]
    · by_cases h2 : x = y
      · subst h2
        simp [setInsert, h1, lt_irrefl]
      · simp [setInsert, h1, h2, ih]

theorem setInsert_count_self (x : Nat) (l : List Nat)
    (hs : List.Pairwise (· < ·) l) : (setInsert x l).count x = 1 := by
  induction l with
  | nil => simp [setInsert]
  | cons y ys ih =>
    obtain ⟨hy, hys⟩ := List.pairwise_cons.mp hs
    by_cases h1 : x < y
    · have hnm : x ∉ y :: ys := by
        intro hmem
        rcases List.mem_cons.mp hmem with rfl | hmem
        · exact lt_irrefl x h1
        · exact lt_asymm h1 (hy x hmem)
      simp [setInsert, h1, List.count_cons, List.count_eq_zero.mpr, hnm]
    · by_cases h2 : x = y
      · subst h2
        have hnm : x ∉ ys := by
          intro hmem
          exact lt_irrefl x (hy x hmem)
        simp [setInsert, h1, List.count_cons, List.count_eq_zero.mpr hnm]
      · simp [setInsert, h1, h2, List.count_cons, Ne.symm h2, ih hys]

theorem filter_map_onStart_length (l : List Nat) (cb : Nat) :
    ((l.map Event.onStart).filter
      (fun e => decide (e = Event.onStart cb))).length = l.count cb := by
  induction l with
  | nil => rfl
  | cons x xs ih =>
    by_cases hx : x = cb
    · subst hx
      simp [List.count_cons, ih]
    · simp [List.count_cons, hx, ih]

/-- Claim C9 counterexample: `callbacks_` is a `std::set` keyed by
subscriber identity, so registering the same subscriber (identity 5)
twice on a STARTED controller leaves one entry, and the subsequent
`start()` event delivers ONE `onStart` invocation to it — not the two
deliveries the claim asserts. -/
theorem double_registration_two_deliveries_cex :
    (WifiHalService.registerEventCallback
      (WifiHalService.registerEventCallback halStartedW 5) 5).callbacks_ =
      [3, 5, 7] ∧
    ((WifiHalService.start vendorW (WifiHalService.registerEventCallback
        (WifiHalService.registerEventCallback halStartedW 5) 5)).2.filter
      (fun e => decide (e = Event.onStart 5))).length = 1 ∧
    ¬ (((WifiHalService.start vendorW (WifiHalService.registerEventCallback
        (WifiHalService.registerEventCallback halStartedW 5) 5)).2.filter
      (fun e => decide (e = Event.onStart 5))).length = 2) := by
  decide

/-- Claim C9 (amended): registering the same subscriber twice results in
ONE broadcast delivery to it per subsequent event: the subscriber set is
keyed by identity and deduplicates a doubly-registered subscriber, the
second registration being a no-op. -/
theorem double_registration_deduplicated (v : Vendor)
    (s : WifiHalService) (cb : Nat) (h : s.state_ = State.STARTED)
    (hs : List.Pairwise (· < ·) s.callbacks_) :
    DoubleRegistrationDedupProp v s cb := by
  unfold DoubleRegistrationDedupProp
  have hidem : WifiHalService.registerEventCallback
      (WifiHalService.registerEventCallback s cb) cb =
    WifiHalService.registerEventCallback s cb := by
    simp [WifiHalService.registerEventCallback, setInsert_idem]
  refine ⟨hidem, ?_⟩
  rw [hidem]
  have h2 : (WifiHalService.registerEventCallback s cb).state_ =
      State.STARTED := h
  rw [start_while_started_step v _ h2]
  have h3 : (WifiHalService.registerEventCallback s cb).callbacks_ =
      setInsert cb s.callbacks_ := rfl
  simp only [h3]
  rw [filter_map_onStart_length, setInsert_count_self cb s.callbacks_ hs]

theorem double_registration_deduplicated_witness :
    halStartedW.state_ = State.STARTED ∧
    List.Pairwise (· < ·) halStartedW.callbacks_ ∧
    DoubleRegistrationDedupProp vendorW halStartedW 5 :=
  ⟨rfl, by decide,
    double_registration_deduplicated vendorW halStartedW 5 rfl (by decide)⟩
